import Mathlib

/-!
Shallow embedding of the decision engine of
`src/tradingview_defi_strategy/trader_joe_grid_search.py` and of the
parameter-sweep grid it is run under.  Prices, cash and indicator values
are modelled as exact rationals.  The per-cycle callback `decide_trades`
(the closure built inside `grid_search_worker`) is embedded as a pure
function from its cycle inputs to the list of emitted trade intents, the
mutated `Position` and the mutated trading pair.

The indicator library calls (`pandas_ta.rsi`, `pandas_ta.bbands`) and the
`PositionManager` helpers (`open_1x_long`, `close_all`) are external
collaborators whose sources are not part of this repository; they are
modelled from the specification's contract for them (sections 4.1, 4.2
and 6 of the design document), as noted on each definition.
-/

namespace TraderJoe

attribute [local semireducible] Rat.mul Rat.inv Rat.add Rat.sub

/-- How much of the cash is put on a single trade (`POSITION_SIZE = 0.50`). -/
def POSITION_SIZE : ℚ := 1 / 2

/-- Assumed live LP fee (`LIVE_TRADING_FEE = 0.0020`). -/
def LIVE_TRADING_FEE : ℚ := 1 / 500

/-- Number of candles used for the Relative Strength Indicator (`RSI_LENGTH = 14`). -/
def RSI_LENGTH : ℕ := 14

/-- Stop loss level relative to the mid price at open time (`STOP_LOSS_PCT = 0.98`). -/
def STOP_LOSS_PCT : ℚ := 49 / 50

/-- Trailing stop loss level (`TRAILING_STOP_LOSS_PCT = 0.9975`). -/
def TRAILING_STOP_LOSS_PCT : ℚ := 399 / 400

/-- Level, relative to the opening price, at which the trailing stop loss is
activated (`TRAILING_STOP_LOSS_ACTIVATION_LEVEL = 1.03`). -/
def TRAILING_STOP_LOSS_ACTIVATION_LEVEL : ℚ := 103 / 100

/-- Bollinger band standard deviation options (`STDDEV = [2.0, 2.5, 2.8, 3.0, 3.5]`). -/
def STDDEV : List ℚ := [2, 5/2, 14/5, 3, 7/2]

/-- RSI thresholds to open a position (`RSI_THRESHOLD = [55, 65, 75, 85]`). -/
def RSI_THRESHOLD : List ℚ := [55, 65, 75, 85]

/-- Moving average lengths for Bollinger bands (`MOVING_AVERAGE_LENGTH = [9, 12, 15, 20, 25]`). -/
def MOVING_AVERAGE_LENGTH : List ℕ := [9, 12, 15, 20, 25]

/-- One grid-searched parameter combination, mirroring the tuple returned by
`combination.destructure()` in `grid_search_worker`. -/
structure GridCombination where
  rsi_threshold : ℚ
  stddev : ℚ
  moving_average_length : ℕ
deriving DecidableEq, Repr

/-- Positional destructuring of a combination, mirroring
`rsi_threshold, stddev, moving_average_length = combination.destructure()`. -/
def GridCombination.destructure (c : GridCombination) : ℚ × ℚ × ℕ :=
  (c.rsi_threshold, c.stddev, c.moving_average_length)

/-- The cartesian-product grid of parameter combinations, in the fixed
destructuring order (rsi_threshold, stddev, moving_average_length).
Modelled from the spec: the `prepare_grid_combinations` call lives in the
notebook that is not part of `src/`; per the in-source comment in
`grid_search_worker` the declaration order of the choice lists equals the
destructure order used at line 118. -/
def gridCombinations : List GridCombination :=
  RSI_THRESHOLD.flatMap fun r =>
    STDDEV.flatMap fun s =>
      MOVING_AVERAGE_LENGTH.map fun m => GridCombination.mk r s m

/-- The single trading pair object.  Only the field the engine mutates
(`pair.fee = LIVE_TRADING_FEE`, line 133) is modelled. -/
structure Pair where
  fee : ℚ
deriving DecidableEq, Repr

/-- An open position as seen and mutated by `decide_trades`:
`get_opening_price()`, `stop_loss` and `trailing_stop_loss_pct`. -/
structure Position where
  openingPrice : ℚ
  stopLoss : Option ℚ
  trailingStopLossPct : Option ℚ
deriving DecidableEq, Repr

/-- A trade intent returned to the Executor.  Modelled from the spec:
`position_manager.open_1x_long(pair, buy_amount, stop_loss_pct=...)` emits
exactly one open intent carrying its sizing and stop-loss parameter, and
`position_manager.close_all()` emits exactly one close intent for the
entire position (sections 4.2 and 6 of the design document). -/
inductive TradeIntent where
  | openLong (amount : ℚ) (stopLossPct : ℚ)
  | closeAll
deriving DecidableEq, Repr

/-- Last element of the close-price window (`close_prices.iloc[-1]`). -/
def latestClose (closes : List ℚ) : ℚ := closes.getLastD 0

/-- The last `n` elements of the window: the sub-window a rolling indicator
value at the latest candle is computed over. -/
def lastWindow (closes : List ℚ) (n : ℕ) : List ℚ := closes.drop (closes.length - n)

/-- Simple moving average of a window. -/
def sma (xs : List ℚ) : ℚ := xs.sum / xs.length

/-- Population variance of a window (the spec fixes population, not
sample-corrected, standard deviation for the bands, section 4.1). -/
def popVariance (xs : List ℚ) : ℚ :=
  (xs.map fun x => (x - sma xs) ^ 2).sum / xs.length

/-- Wilder smoothing: seed with the simple average of the first `length`
values, then fold `avg := (avg * (length - 1) + v) / length` over the rest. -/
def wilderSmooth (length : ℕ) (xs : List ℚ) : ℚ :=
  (xs.drop length).foldl
    (fun acc v => (acc * ((length : ℚ) - 1) + v) / (length : ℚ))
    ((xs.take length).sum / (length : ℚ))

/-- Latest RSI value of the window.  Modelled from the spec: `pandas_ta.rsi`
is an external library; per section 4.1 RSI needs at least `length + 1`
closes (otherwise the indicator is absent, i.e. `none`) and uses the
classical smoothed average-gain / average-loss ratio.  When the average
loss is zero the oscillator saturates at 100. -/
def rsi (closes : List ℚ) (length : ℕ) : Option ℚ :=
  if closes.length < length + 1 then none
  else
    let ds := List.zipWith (fun a b => a - b) closes.tail closes
    let avgGain := wilderSmooth length (ds.map fun d => max d 0)
    let avgLoss := wilderSmooth length (ds.map fun d => max (-d) 0)
    some (if avgLoss = 0 then 100 else 100 - 100 / (1 + avgGain / avgLoss))

/-- The Bollinger band data for the latest candle: the middle band (simple
moving average, `BBM`), the standard-deviation multiplier the bands were
requested with, and the population variance of the same window.  The upper
and lower bands are `mid ± k * sqrt(variance)`. -/
structure BollingerSnapshot where
  mid : ℚ
  k : ℚ
  variance : ℚ
deriving DecidableEq, Repr

/-- Bollinger bands of the window.  Modelled from the spec: `pandas_ta.bbands`
is an external library; per sections 4.1 and 7 the bands are absent (`none`)
when the window is shorter than `moving_average_length`, and an all-equal
(zero-variance) window is an indicator computation failure, also treated as
absent rather than as an error. -/
def bbands (closes : List ℚ) (length : ℕ) (k : ℚ) : Option BollingerSnapshot :=
  if closes.length < length then none
  else if popVariance (lastWindow closes length) = 0 then none
  else some
    { mid := sma (lastWindow closes length)
      k := k
      variance := popVariance (lastWindow closes length) }

/-- The price-breakout test `price_latest > bb_upper.iloc[-1]` of line 181.
The upper band is `mid + k * sqrt(variance)` and the square root of a
rational is irrational in general, so the strict comparison is embedded in
exact arithmetic: for `k ≥ 0`, `price > mid + k * sqrt(variance)` holds iff
`price > mid` and `(price - mid) ^ 2 > k ^ 2 * variance`. -/
def aboveUpperBand (bb : BollingerSnapshot) (price : ℚ) : Prop :=
  bb.mid < price ∧ bb.k ^ 2 * bb.variance < (price - bb.mid) ^ 2

instance (bb : BollingerSnapshot) (price : ℚ) : Decidable (aboveUpperBand bb price) :=
  inferInstanceAs (Decidable (bb.mid < price ∧ bb.k ^ 2 * bb.variance < (price - bb.mid) ^ 2))

/-- The trailing-stop update of lines 193-197: if the latest close has
reached `opening_price * TRAILING_STOP_LOSS_ACTIVATION_LEVEL`, set
`trailing_stop_loss_pct` and recompute `stop_loss` from the latest close;
otherwise leave the position untouched. -/
def updateTrailingStop (pos : Position) (priceLatest : ℚ) : Position :=
  if pos.openingPrice * TRAILING_STOP_LOSS_ACTIVATION_LEVEL ≤ priceLatest then
    { pos with
      trailingStopLossPct := some TRAILING_STOP_LOSS_PCT
      stopLoss := some (priceLatest * TRAILING_STOP_LOSS_PCT) }
  else pos

/-- The initial stop-loss price placed by `open_1x_long(..., stop_loss_pct=p)`.
Modelled from the source comments at lines 98-101 ("Stop loss relative to the
mid price during the time when the position is opened.  If the price drops
below this level, trigger a stop loss") and consistent with the trailing
assignment `position.stop_loss = price_latest * TRAILING_STOP_LOSS_PCT` at
line 197: the stop level is the percentage times the entry price. -/
def openPositionStopLoss (entryPrice : ℚ) : ℚ := entryPrice * STOP_LOSS_PCT

/-- The initial stop-loss price as the specification document words it:
`entry_price * (1 - stop_loss_pct)`.  Stated only to be compared with
`openPositionStopLoss`, the one derived from the source. -/
def specInitialStopLoss (entryPrice : ℚ) : ℚ :=
  entryPrice * (1 - STOP_LOSS_PCT)

/-- Inputs of one `decide_trades` cycle: the close-price window served by
`universe.candles.get_single_pair_data`, the currently open position (if
any), the available cash and the trading pair object. -/
structure DecideInput where
  closes : List ℚ
  openPosition : Option Position
  cash : ℚ
  pair : Pair
deriving DecidableEq, Repr

/-- Outputs of one `decide_trades` cycle: the returned trade list, the
position as mutated by the cycle, and the pair as mutated by the cycle. -/
structure DecideOutput where
  trades : List TradeIntent
  position : Option Position
  pair : Pair
deriving DecidableEq, Repr

/-- The branching body of `decide_trades` (everything after the unconditional
`pair.fee` assignment): the empty-window early return of line 144, the two
indicator-absent early returns of lines 161 and 169, the open decision of
lines 178-184 and the close plus trailing-stop decision of lines 186-197.
Returns the emitted trades and the mutated position. -/
def decideCore (c : GridCombination) (inp : DecideInput) :
    List TradeIntent × Option Position :=
  if inp.closes.length = 0 then ([], inp.openPosition)
  else
    let price_latest := latestClose inp.closes
    match rsi inp.closes RSI_LENGTH with
    | none => ([], inp.openPosition)
    | some rsi_latest =>
      match bbands inp.closes c.moving_average_length c.stddev with
      | none => ([], inp.openPosition)
      | some bb =>
        match inp.openPosition with
        | none =>
          if aboveUpperBand bb price_latest ∧ c.rsi_threshold ≤ rsi_latest then
            ([TradeIntent.openLong (inp.cash * POSITION_SIZE) STOP_LOSS_PCT], none)
          else ([], none)
        | some pos =>
          ((if price_latest < bb.mid then [TradeIntent.closeAll] else []),
            some (updateTrailingStop pos price_latest))

/-- The per-cycle decision function built in `grid_search_worker` (lines
120-199).  The `pair.fee = LIVE_TRADING_FEE` assignment of line 133 happens
unconditionally, before every early return, so the returned pair always
carries the live trading fee. -/
def decide_trades (c : GridCombination) (inp : DecideInput) : DecideOutput :=
  { trades := (decideCore c inp).1
    position := (decideCore c inp).2
    pair := { inp.pair with fee := LIVE_TRADING_FEE } }

/-- Sequential backtest driver for one combination: the Executor calls
`decide_trades` once per cycle, threading the engine-mutated position and
pair, and records each cycle's emitted intent list. -/
def runStrategy (c : GridCombination) (cash : ℚ) :
    Option Position × Pair → List (List ℚ) →
      (Option Position × Pair) × List (List TradeIntent)
  | st, [] => (st, [])
  | st, w :: ws =>
    let out := decide_trades c
      { closes := w, openPosition := st.1, cash := cash, pair := st.2 }
    let rest := runStrategy c cash (out.position, out.pair) ws
    (rest.1, out.trades :: rest.2)

/-! Concrete cycle inputs used to instantiate the theorems below. -/

/-- A 15-candle window that breaks out above the upper band with maximal RSI:
fourteen closes at 100 followed by a close at 200. -/
def witWindowOpen : List ℚ := List.replicate 14 100 ++ [200]

/-- A 15-candle window whose last close falls below the middle band:
fourteen closes at 100 followed by a close at 50. -/
def witWindowClose : List ℚ := List.replicate 14 100 ++ [50]

/-- A degenerate 15-candle window: every close equals 5. -/
def witWindowFlat : List ℚ := List.replicate 15 5

/-- First counterexample window: the price rises to 110, far above the
trailing activation level for an entry at 100. -/
def cexWindow1 : List ℚ :=
  [100, 100, 100, 100, 100, 100, 101, 102, 103, 104, 105, 106, 107, 108, 110]

/-- Second counterexample window: the price retreats to 104, still above the
activation level 103 but below the previous close 110. -/
def cexWindow2 : List ℚ :=
  [100, 100, 100, 100, 100, 100, 101, 102, 102, 102, 102, 103, 103, 103, 104]

/-! Helper lemmas shared by the claim theorems. -/

lemma rsi_length_le {closes : List ℚ} {n : ℕ} {r : ℚ} (h : rsi closes n = some r) :
    n + 1 ≤ closes.length := by
  unfold rsi at h
  split at h
  · simp at h
  · omega

lemma rsi_some_of_length {closes : List ℚ} {n : ℕ} (h : n + 1 ≤ closes.length) :
    ∃ r, rsi closes n = some r := by
  unfold rsi
  rw [if_neg (by omega)]
  exact ⟨_, rfl⟩

lemma sma_const {xs : List ℚ} {x : ℚ} (hne : xs ≠ []) (h : ∀ y ∈ xs, y = x) :
    sma xs = x := by
  have hcast : (xs.length : ℚ) ≠ 0 :=
    Nat.cast_ne_zero.mpr (Nat.pos_iff_ne_zero.mp (List.length_pos.mpr hne))
  have hrep : xs = List.replicate xs.length x := List.eq_replicate_of_mem h
  have hsum : xs.sum = (xs.length : ℚ) * x := by
    conv_lhs => rw [hrep]
    rw [List.sum_replicate, nsmul_eq_mul]
  rw [sma, hsum, mul_div_cancel_left₀ x hcast]

lemma popVariance_zero {xs : List ℚ} {x : ℚ} (h : ∀ y ∈ xs, y = x) :
    popVariance xs = 0 := by
  rcases eq_or_ne xs [] with rfl | hne
  · simp [popVariance]
  · have hsma := sma_const hne h
    have hz : ∀ z ∈ xs.map (fun y => (y - sma xs) ^ 2), z = 0 := by
      intro z hz
      rcases List.mem_map.1 hz with ⟨y, hy, rfl⟩
      rw [hsma, h y hy]
      simp
    rw [popVariance, List.sum_eq_zero hz, zero_div]

lemma bbands_none_of_all_eq {closes : List ℚ} {x : ℚ} (n : ℕ) (k : ℚ)
    (h : ∀ y ∈ closes, y = x) : bbands closes n k = none := by
  have hv : popVariance (lastWindow closes n) = 0 :=
    popVariance_zero fun y hy => h y (List.drop_subset _ _ hy)
  simp [bbands, hv]

lemma updateTrailingStop_openingPrice (pos : Position) (p : ℚ) :
    (updateTrailingStop pos p).openingPrice = pos.openingPrice := by
  unfold updateTrailingStop
  split <;> rfl

lemma trailing_foldl_invariant (entry : ℚ) (ps : List ℚ) (q : Position)
    (hop : q.openingPrice = entry)
    (hpct : q.trailingStopLossPct = some TRAILING_STOP_LOSS_PCT)
    (hsl : ∃ a, entry * TRAILING_STOP_LOSS_ACTIVATION_LEVEL ≤ a
            ∧ q.stopLoss = some (a * TRAILING_STOP_LOSS_PCT)) :
    (ps.foldl updateTrailingStop q).openingPrice = entry
    ∧ (ps.foldl updateTrailingStop q).trailingStopLossPct
        = some TRAILING_STOP_LOSS_PCT
    ∧ ∃ a, entry * TRAILING_STOP_LOSS_ACTIVATION_LEVEL ≤ a
        ∧ (ps.foldl updateTrailingStop q).stopLoss
            = some (a * TRAILING_STOP_LOSS_PCT) := by
  induction ps generalizing q with
  | nil => exact ⟨hop, hpct, hsl⟩
  | cons p ps ih =>
    simp only [List.foldl_cons]
    apply ih
    · rw [updateTrailingStop_openingPrice]
      exact hop
    · unfold updateTrailingStop
      split
      · rfl
      · exact hpct
    · unfold updateTrailingStop
      split
      · rename_i hle
        rw [hop] at hle
        exact ⟨p, hle, rfl⟩
      · exact hsl

lemma decideCore_fst_shape (c : GridCombination) (inp : DecideInput) :
    (decideCore c inp).1 = []
    ∨ (decideCore c inp).1
        = [TradeIntent.openLong (inp.cash * POSITION_SIZE) STOP_LOSS_PCT]
    ∨ (decideCore c inp).1 = [TradeIntent.closeAll] := by
  unfold decideCore
  dsimp only
  split
  · exact Or.inl rfl
  · split
    · exact Or.inl rfl
    · split
      · exact Or.inl rfl
      · split
        · split
          · exact Or.inr (Or.inl rfl)
          · exact Or.inl rfl
        · split
          · exact Or.inr (Or.inr rfl)
          · exact Or.inl rfl

/-! Claim theorems. -/

/-- C10: every invocation of `decide_trades` sets the shared pair's fee to
`LIVE_TRADING_FEE = 0.0020`, and the assignment happens before every early
return, so it occurs on every cycle, including cycles that emit no trade
intents (short or empty windows included, since the statement quantifies
over all inputs). -/
theorem decide_trades_sets_fee (c : GridCombination) (inp : DecideInput) :
    (decide_trades c inp).pair.fee = LIVE_TRADING_FEE := rfl

/-- C9: the open branch and the close branch are the two arms of a single
conditional on whether a position is open, so one cycle's returned trade
list is empty, or the single open intent, or the single close intent — it
never contains both an open intent and a close intent. -/
theorem open_close_mutually_exclusive (c : GridCombination) (inp : DecideInput) :
    (decide_trades c inp).trades = []
    ∨ (decide_trades c inp).trades
        = [TradeIntent.openLong (inp.cash * POSITION_SIZE) STOP_LOSS_PCT]
    ∨ (decide_trades c inp).trades = [TradeIntent.closeAll] :=
  decideCore_fst_shape c inp

/-- C8: the per-cycle decision function is deterministic — two runs of the
engine over equal parameter combinations, cash, initial state and price
histories produce identical per-cycle intent sequences and identical final
position and pair state.  The embedding of `decide_trades` is a pure
function because the source reads only its arguments and module constants
(no wall clock, shared counters, or randomness). -/
theorem run_deterministic (c c' : GridCombination) (cash cash' : ℚ)
    (st st' : Option Position × Pair) (ws ws' : List (List ℚ))
    (hc : c = c') (hcash : cash = cash') (hst : st = st') (hws : ws = ws') :
    (runStrategy c cash st ws).2 = (runStrategy c' cash' st' ws').2
    ∧ (runStrategy c cash st ws).1 = (runStrategy c' cash' st' ws').1 := by
  subst hc
  subst hcash
  subst hst
  subst hws
  exact ⟨rfl, rfl⟩

/-- Witness for C8 at a concrete combination, state and window sequence. -/
theorem run_deterministic_witness :
    (runStrategy ⟨55, 2, 9⟩ 1000 (none, ⟨0⟩) [cexWindow1]).2
        = (runStrategy ⟨55, 2, 9⟩ 1000 (none, ⟨0⟩) [cexWindow1]).2
    ∧ (runStrategy ⟨55, 2, 9⟩ 1000 (none, ⟨0⟩) [cexWindow1]).1
        = (runStrategy ⟨55, 2, 9⟩ 1000 (none, ⟨0⟩) [cexWindow1]).1 :=
  run_deterministic ⟨55, 2, 9⟩ ⟨55, 2, 9⟩ 1000 1000 (none, ⟨0⟩) (none, ⟨0⟩)
    [cexWindow1] [cexWindow1] rfl rfl rfl rfl

/-- C7: the choice lists have sizes 5, 4 and 5, the cartesian-product grid
holds exactly 100 pairwise-distinct combinations, and every combination
destructures positionally as (rsi_threshold, stddev, moving_average_length),
the declaration order of the choice lists. -/
theorem grid_exactly_100_distinct :
    STDDEV.length = 5 ∧ RSI_THRESHOLD.length = 4 ∧ MOVING_AVERAGE_LENGTH.length = 5
    ∧ gridCombinations.length = 100 ∧ gridCombinations.Nodup
    ∧ ∀ c ∈ gridCombinations,
        c.destructure = (c.rsi_threshold, c.stddev, c.moving_average_length) :=
  ⟨rfl, rfl, rfl, by decide, by decide, fun c _ => rfl⟩

/-- Witness for C7 at a concrete member of the grid. -/
theorem grid_exactly_100_distinct_witness :
    GridCombination.mk 55 2 9 ∈ gridCombinations
    ∧ (GridCombination.mk 55 2 9).destructure = (55, 2, 9) :=
  ⟨by decide, grid_exactly_100_distinct.2.2.2.2.2 (GridCombination.mk 55 2 9) (by decide)⟩

/-- C6 counterexample: the claim places the initial stop-loss at
`entry_price * (1 - STOP_LOSS_PCT)` with `STOP_LOSS_PCT = 0.98`, which at an
entry price of 100 would be 2; the stop level the code's parameter produces
(stop relative to the mid price, per the source comments at lines 98-101 and
the trailing assignment convention at line 197) is 98. -/
theorem initial_stop_loss_cex :
    openPositionStopLoss 100 = 98 ∧ specInitialStopLoss 100 = 2
    ∧ specInitialStopLoss 100 < openPositionStopLoss 100 := by decide

/-- C6 (amended): every open intent emitted by `decide_trades` carries the
stop-loss parameter `STOP_LOSS_PCT = 0.98` and the sizing
`cash * POSITION_SIZE`; the initial stop-loss price this parameter places is
`entry_price * STOP_LOSS_PCT` (a 2% drop below entry), not
`entry_price * (1 - STOP_LOSS_PCT)`. -/
theorem open_intent_stop_loss (c : GridCombination) (inp : DecideInput) (a s : ℚ)
    (h : TradeIntent.openLong a s ∈ (decide_trades c inp).trades) :
    s = STOP_LOSS_PCT ∧ a = inp.cash * POSITION_SIZE
    ∧ STOP_LOSS_PCT = 49 / 50
    ∧ openPositionStopLoss = fun entry => entry * STOP_LOSS_PCT := by
  have h' : TradeIntent.openLong a s ∈ (decideCore c inp).1 := h
  rcases decideCore_fst_shape c inp with hs | hs | hs
  · rw [hs] at h'
    simp at h'
  · rw [hs] at h'
    simp only [List.mem_singleton, TradeIntent.openLong.injEq] at h'
    exact ⟨h'.2, h'.1, rfl, rfl⟩
  · rw [hs] at h'
    simp at h'

/-- Witness for C6 (amended) at a concrete cycle that emits an open intent. -/
theorem open_intent_stop_loss_witness :
    TradeIntent.openLong (1000 * POSITION_SIZE) STOP_LOSS_PCT
        ∈ (decide_trades ⟨55, 2, 9⟩ ⟨witWindowOpen, none, 1000, ⟨0⟩⟩).trades
    ∧ (STOP_LOSS_PCT = STOP_LOSS_PCT
       ∧ 1000 * POSITION_SIZE = (1000 : ℚ) * POSITION_SIZE
       ∧ STOP_LOSS_PCT = 49 / 50
       ∧ openPositionStopLoss = fun entry => entry * STOP_LOSS_PCT) :=
  ⟨by decide,
    open_intent_stop_loss ⟨55, 2, 9⟩ ⟨witWindowOpen, none, 1000, ⟨0⟩⟩
      (1000 * POSITION_SIZE) STOP_LOSS_PCT (by decide)⟩

/-- C4: a window shorter than `max(RSI_LENGTH + 1, moving_average_length)` —
the empty window included — leaves the indicator snapshot absent (the RSI
series or the band frame is `none`) and the cycle returns the empty trade
list; the embedding is total, so the skip is a normal return, not an
exception. -/
theorem insufficient_history_empty (c : GridCombination) (inp : DecideInput)
    (h : inp.closes.length < max (RSI_LENGTH + 1) c.moving_average_length) :
    (decide_trades c inp).trades = []
    ∧ (rsi inp.closes RSI_LENGTH = none
       ∨ bbands inp.closes c.moving_average_length c.stddev = none) := by
  by_cases h15 : inp.closes.length < RSI_LENGTH + 1
  · have hr : rsi inp.closes RSI_LENGTH = none := by
      unfold rsi
      rw [if_pos h15]
    refine ⟨?_, Or.inl hr⟩
    show (decideCore c inp).1 = []
    unfold decideCore
    by_cases h0 : inp.closes.length = 0
    · rw [if_pos h0]
    · rw [if_neg h0]
      dsimp only
      rw [hr]
  · have hmal : inp.closes.length < c.moving_average_length := by
      rcases lt_max_iff.mp h with h' | h'
      · exact absurd h' h15
      · exact h'
    have hb : bbands inp.closes c.moving_average_length c.stddev = none := by
      unfold bbands
      rw [if_pos hmal]
    refine ⟨?_, Or.inr hb⟩
    show (decideCore c inp).1 = []
    unfold decideCore
    by_cases h0 : inp.closes.length = 0
    · rw [if_pos h0]
    · rw [if_neg h0]
      dsimp only
      cases hrv : rsi inp.closes RSI_LENGTH with
      | none => rfl
      | some r => rw [hb]

/-- Witness for C4 at a concrete three-candle window. -/
theorem insufficient_history_empty_witness :
    ([1, 2, 3] : List ℚ).length < max (RSI_LENGTH + 1) (9 : ℕ)
    ∧ ((decide_trades ⟨55, 2, 9⟩ ⟨[1, 2, 3], none, 1000, ⟨0⟩⟩).trades = []
       ∧ (rsi [1, 2, 3] RSI_LENGTH = none ∨ bbands [1, 2, 3] 9 2 = none)) :=
  ⟨by decide,
    insufficient_history_empty ⟨55, 2, 9⟩ ⟨[1, 2, 3], none, 1000, ⟨0⟩⟩ (by decide)⟩

/-- C5: a window of sufficient length whose closes are all equal makes the
rolling standard deviation degenerate; the band frame is treated as absent
and the cycle returns the empty trade list.  The embedding is total, so no
exception can reach the Executor. -/
theorem degenerate_window_empty (c : GridCombination) (inp : DecideInput) (x : ℚ)
    (hlen : max (RSI_LENGTH + 1) c.moving_average_length ≤ inp.closes.length)
    (hall : ∀ y ∈ inp.closes, y = x) :
    (decide_trades c inp).trades = []
    ∧ bbands inp.closes c.moving_average_length c.stddev = none := by
  have hb : bbands inp.closes c.moving_average_length c.stddev = none :=
    bbands_none_of_all_eq _ _ hall
  have h15 : RSI_LENGTH + 1 ≤ inp.closes.length := le_trans (le_max_left _ _) hlen
  obtain ⟨r, hr⟩ := rsi_some_of_length h15
  refine ⟨?_, hb⟩
  show (decideCore c inp).1 = []
  unfold decideCore
  rw [if_neg (by omega)]
  dsimp only
  rw [hr, hb]

/-- Witness for C5 at a concrete all-equal fifteen-candle window. -/
theorem degenerate_window_empty_witness :
    max (RSI_LENGTH + 1) (9 : ℕ) ≤ witWindowFlat.length
    ∧ (∀ y ∈ witWindowFlat, y = (5 : ℚ))
    ∧ ((decide_trades ⟨55, 2, 9⟩ ⟨witWindowFlat, none, 1000, ⟨0⟩⟩).trades = []
       ∧ bbands witWindowFlat 9 2 = none) :=
  ⟨by decide, by decide,
    degenerate_window_empty ⟨55, 2, 9⟩ ⟨witWindowFlat, none, 1000, ⟨0⟩⟩ 5
      (by decide) (by decide)⟩

/-- C1: with no open position and a defined indicator snapshot, the cycle
returns exactly the single open intent, sized `cash * POSITION_SIZE` and
carrying the `STOP_LOSS_PCT` parameter, if and only if the latest close
breaks above the upper band AND the latest RSI is at least the combination's
threshold; when either conjunct fails the cycle returns no intents. -/
theorem open_intent_iff (c : GridCombination) (inp : DecideInput)
    (r : ℚ) (bb : BollingerSnapshot)
    (hflat : inp.openPosition = none)
    (hrsi : rsi inp.closes RSI_LENGTH = some r)
    (hbb : bbands inp.closes c.moving_average_length c.stddev = some bb) :
    ((decide_trades c inp).trades
        = [TradeIntent.openLong (inp.cash * POSITION_SIZE) STOP_LOSS_PCT]
      ↔ aboveUpperBand bb (latestClose inp.closes) ∧ c.rsi_threshold ≤ r)
    ∧ (¬(aboveUpperBand bb (latestClose inp.closes) ∧ c.rsi_threshold ≤ r)
        → (decide_trades c inp).trades = []) := by
  have h0 : ¬ inp.closes.length = 0 := by
    have h15 := rsi_length_le hrsi
    omega
  by_cases hcond : aboveUpperBand bb (latestClose inp.closes) ∧ c.rsi_threshold ≤ r
  · have ht : (decideCore c inp).1
        = [TradeIntent.openLong (inp.cash * POSITION_SIZE) STOP_LOSS_PCT] := by
      unfold decideCore
      rw [if_neg h0]
      dsimp only
      rw [hrsi, hbb, hflat]
      dsimp only
      rw [if_pos hcond]
    exact ⟨⟨fun _ => hcond, fun _ => ht⟩, fun hn => absurd hcond hn⟩
  · have ht : (decideCore c inp).1 = [] := by
      unfold decideCore
      rw [if_neg h0]
      dsimp only
      rw [hrsi, hbb, hflat]
      dsimp only
      rw [if_neg hcond]
    refine ⟨⟨fun hEq => ?_, fun hc => absurd hc hcond⟩, fun _ => ht⟩
    have hEq' : (decideCore c inp).1
        = [TradeIntent.openLong (inp.cash * POSITION_SIZE) STOP_LOSS_PCT] := hEq
    rw [ht] at hEq'
    simp at hEq'

/-- Witness for C1 at a concrete breakout window with RSI 100. -/
theorem open_intent_iff_witness :
    (decide_trades ⟨55, 2, 9⟩ ⟨witWindowOpen, none, 1000, ⟨0⟩⟩).trades
      = [TradeIntent.openLong ((1000 : ℚ) * POSITION_SIZE) STOP_LOSS_PCT] :=
  ((open_intent_iff ⟨55, 2, 9⟩ ⟨witWindowOpen, none, 1000, ⟨0⟩⟩ 100
      ⟨1000/9, 2, 80000/81⟩ rfl (by decide) (by decide)).1).mpr (by decide)

/-- C2: with an open position and a defined indicator snapshot, the cycle
returns exactly the single close intent for the entire position if and only
if the latest close is strictly below the middle band; the RSI value `r` is
universally quantified and absent from the condition, so the close decision
is independent of it, and the trailing-stop check is still applied to the
position in the same cycle. -/
theorem close_intent_iff (c : GridCombination) (inp : DecideInput)
    (pos : Position) (r : ℚ) (bb : BollingerSnapshot)
    (hpos : inp.openPosition = some pos)
    (hrsi : rsi inp.closes RSI_LENGTH = some r)
    (hbb : bbands inp.closes c.moving_average_length c.stddev = some bb) :
    ((decide_trades c inp).trades = [TradeIntent.closeAll]
      ↔ latestClose inp.closes < bb.mid)
    ∧ (decide_trades c inp).position
        = some (updateTrailingStop pos (latestClose inp.closes)) := by
  have h0 : ¬ inp.closes.length = 0 := by
    have h15 := rsi_length_le hrsi
    omega
  have hpair : decideCore c inp
      = ((if latestClose inp.closes < bb.mid then [TradeIntent.closeAll] else []),
          some (updateTrailingStop pos (latestClose inp.closes))) := by
    unfold decideCore
    rw [if_neg h0]
    dsimp only
    rw [hrsi, hbb, hpos]
  constructor
  · constructor
    · intro h
      have h' : (decideCore c inp).1 = [TradeIntent.closeAll] := h
      rw [hpair] at h'
      dsimp only at h'
      by_cases hlt : latestClose inp.closes < bb.mid
      · exact hlt
      · rw [if_neg hlt] at h'
        simp at h'
    · intro hlt
      show (decideCore c inp).1 = _
      rw [hpair]
      dsimp only
      rw [if_pos hlt]
  · show (decideCore c inp).2 = _
    rw [hpair]

/-- Witness for C2 at a concrete window closing below the middle band. -/
theorem close_intent_iff_witness :
    (decide_trades ⟨55, 2, 9⟩
        ⟨witWindowClose, some ⟨100, some 98, none⟩, 1000, ⟨0⟩⟩).trades
      = [TradeIntent.closeAll] :=
  ((close_intent_iff ⟨55, 2, 9⟩
      ⟨witWindowClose, some ⟨100, some 98, none⟩, 1000, ⟨0⟩⟩
      ⟨100, some 98, none⟩ 0 ⟨850/9, 2, 20000/81⟩ rfl (by decide) (by decide)).1).mpr
    (by decide)

/-- C3 counterexample: with an entry at 100, a first cycle closing at 110
sets the trailing stop to 109.725; the next cycle closes at 104 — still at
or above the activation level 103, with the position still open and no close
intent emitted — and the code recomputes the stop DOWN to 103.74, lowering
it below the previously enforced level, so the claimed ratchet does not
hold. -/
theorem trailing_ratchet_cex :
    (decide_trades ⟨55, 2, 9⟩
        ⟨cexWindow1, some ⟨100, some 98, none⟩, 1000, ⟨0⟩⟩).trades = []
    ∧ (decide_trades ⟨55, 2, 9⟩
        ⟨cexWindow1, some ⟨100, some 98, none⟩, 1000, ⟨0⟩⟩).position
        = some ⟨100, some (4389/40), some TRAILING_STOP_LOSS_PCT⟩
    ∧ (decide_trades ⟨55, 2, 9⟩
        ⟨cexWindow2, some ⟨100, some (4389/40), some TRAILING_STOP_LOSS_PCT⟩,
          1000, ⟨0⟩⟩).trades = []
    ∧ (decide_trades ⟨55, 2, 9⟩
        ⟨cexWindow2, some ⟨100, some (4389/40), some TRAILING_STOP_LOSS_PCT⟩,
          1000, ⟨0⟩⟩).position
        = some ⟨100, some (5187/50), some TRAILING_STOP_LOSS_PCT⟩
    ∧ (100 : ℚ) * TRAILING_STOP_LOSS_ACTIVATION_LEVEL ≤ latestClose cexWindow1
    ∧ (100 : ℚ) * TRAILING_STOP_LOSS_ACTIVATION_LEVEL ≤ latestClose cexWindow2
    ∧ (5187 : ℚ) / 50 < 4389 / 40 := by decide

/-- C3 (amended): once a cycle's latest close reaches the activation level,
the trailing percentage is set and stays set, the opening price is
preserved, and on every subsequent cycle the stop-loss level is
trailing-derived — it equals `q * TRAILING_STOP_LOSS_PCT` for some
post-activation close `q` and never reverts to the pre-activation fixed
level; it is, however, recomputed from the latest close on every cycle at or
above the activation level, and may therefore decrease when the price
retreats while staying above activation (no downward ratchet guarantee). -/
theorem trailing_stop_after_activation (pos : Position) (p0 : ℚ) (ps : List ℚ)
    (hact : pos.openingPrice * TRAILING_STOP_LOSS_ACTIVATION_LEVEL ≤ p0) :
    (ps.foldl updateTrailingStop (updateTrailingStop pos p0)).openingPrice
        = pos.openingPrice
    ∧ (ps.foldl updateTrailingStop (updateTrailingStop pos p0)).trailingStopLossPct
        = some TRAILING_STOP_LOSS_PCT
    ∧ ∃ q, pos.openingPrice * TRAILING_STOP_LOSS_ACTIVATION_LEVEL ≤ q
        ∧ (ps.foldl updateTrailingStop (updateTrailingStop pos p0)).stopLoss
            = some (q * TRAILING_STOP_LOSS_PCT) := by
  apply trailing_foldl_invariant
  · exact updateTrailingStop_openingPrice pos p0
  · unfold updateTrailingStop
    rw [if_pos hact]
  · refine ⟨p0, hact, ?_⟩
    unfold updateTrailingStop
    rw [if_pos hact]

/-- Witness for C3 (amended) at entry 100, activating close 110, then a
retreating close 104. -/
theorem trailing_stop_after_activation_witness :
    (⟨100, some 98, none⟩ : Position).openingPrice
        * TRAILING_STOP_LOSS_ACTIVATION_LEVEL ≤ (110 : ℚ)
    ∧ (([104] : List ℚ).foldl updateTrailingStop
          (updateTrailingStop ⟨100, some 98, none⟩ 110)).openingPrice
        = (⟨100, some 98, none⟩ : Position).openingPrice
    ∧ (([104] : List ℚ).foldl updateTrailingStop
          (updateTrailingStop ⟨100, some 98, none⟩ 110)).trailingStopLossPct
        = some TRAILING_STOP_LOSS_PCT
    ∧ ∃ q, (⟨100, some 98, none⟩ : Position).openingPrice
          * TRAILING_STOP_LOSS_ACTIVATION_LEVEL ≤ q
        ∧ (([104] : List ℚ).foldl updateTrailingStop
              (updateTrailingStop ⟨100, some 98, none⟩ 110)).stopLoss
            = some (q * TRAILING_STOP_LOSS_PCT) :=
  ⟨by decide,
    trailing_stop_after_activation ⟨100, some 98, none⟩ 110 [104] (by decide)⟩

end TraderJoe
